import Mathlib

/-!
Verification of the performance-measurement harness in `crates/core/src/lib.rs`
(together with the CLI front end `crates/cli/src/main.rs`).

Modelling conventions:
* Rust `bool` fields become Lean `Bool` fields with the source field names.
* Rust `f64` values derived from `u64` counter readings are modelled by `ℚ`:
  every computation the claims touch (1000/500, guards against a zero
  denominator) is exact, so the rational model agrees with the IEEE one on
  every statement proved below.
* Fallible Rust operations (`?` on `eyre::Result`) become `Except String`
  values; the side-effecting perf-event syscalls and the EVM invocation are
  abstracted by an `Oracle` supplying each operation's outcome, and
  `executeTest` additionally returns the ordered list of observable events
  so that lifecycle-ordering claims can be stated.
-/

/-- `PerfEventConfig` (src/crates/core/src/lib.rs lines 16-28): one flag per
low-level hardware counter. -/
structure PerfEventConfig where
  cycles : Bool
  instructions : Bool
  last_level_cache_references : Bool
  last_level_cache_misses : Bool
  l1_data_cache_reads : Bool
  l1_data_cache_misses : Bool
  l1_instruction_cache_misses : Bool
  branch_instructions : Bool
  branch_misses : Bool
  cpu_migrations : Bool
deriving DecidableEq

/-- `PerfEventConfig::default()` (derived `Default`): all flags false. -/
def PerfEventConfig.default : PerfEventConfig :=
  ⟨false, false, false, false, false, false, false, false, false, false⟩

/-- `PerfReportConfig` (lines 30-39): one flag per user-facing metric. -/
structure PerfReportConfig where
  instructions : Bool
  instructions_per_cycle : Bool
  last_level_cache_hit_rate : Bool
  l1_data_cache_hit_rate : Bool
  l1_instruction_cache_misses : Bool
  branch_miss_ratio : Bool
  cpu_migrations : Bool
deriving DecidableEq

/-- `PerfReportConfig::default()`: all flags false. -/
def PerfReportConfig.default : PerfReportConfig :=
  ⟨false, false, false, false, false, false, false⟩

/-- `impl From<PerfReportConfig> for PerfEventConfig` (lines 41-89): the
metric-requirement resolver.  Starts from `PerfEventConfig::default()` and
switches on the counters each requested metric needs, in source order. -/
def PerfEventConfig.ofReportConfig (value : PerfReportConfig) : PerfEventConfig :=
  let config := PerfEventConfig.default
  let config := if value.instructions then { config with instructions := true } else config
  let config := if value.instructions_per_cycle then
      { config with cycles := true, instructions := true } else config
  let config := if value.last_level_cache_hit_rate then
      { config with last_level_cache_references := true, last_level_cache_misses := true }
    else config
  let config := if value.l1_data_cache_hit_rate then
      { config with l1_data_cache_reads := true, l1_data_cache_misses := true } else config
  let config := if value.l1_instruction_cache_misses then
      { config with l1_instruction_cache_misses := true } else config
  let config := if value.branch_miss_ratio then
      { config with branch_instructions := true, branch_misses := true } else config
  let config := if value.cpu_migrations then { config with cpu_migrations := true } else config
  config

/-- `PerfReport` (lines 351-368): each derived metric independently optional. -/
structure PerfReport where
  instructions : Option ℚ
  instructions_per_cycle : Option ℚ
  last_level_cache_hit_rate : Option ℚ
  l1_data_cache_hit_rate : Option ℚ
  l1_instruction_cache_misses : Option ℚ
  branch_miss_ratio : Option ℚ
  cpu_migrations : Option ℚ
deriving DecidableEq

/-- `TestResult` (lines 91-98). -/
structure TestResult where
  duration_ns : ℚ
  perf_report : Option PerfReport
deriving DecidableEq

/-- `num_traits::FromPrimitive::from_u64` for `f64`: `Some(n as f64)`, i.e. it
never fails on a `u64` argument (the cast is lossy but total). -/
def f64_from_u64 (n : ℕ) : Option ℚ := some (n : ℚ)

/-- `Option<Result<A>>::transpose()`. -/
def optionTranspose : Option (Except String α) → Except String (Option α)
  | none => .ok none
  | some (.error e) => .error e
  | some (.ok a) => .ok (some a)

/-- The `count_to_f64!` macro body (lines 298-305): for a counter slot holding
a reading, `slot.map(|c| f64::from_u64(counts[c]).ok_or_else(err)).transpose()?`.
The slot is modelled as `Option ℕ`: `some n` when the counter was opened and
read `n`, `none` when it was never opened. -/
def count_to_f64 (counter : Option ℕ) : Except String (Option ℚ) :=
  optionTranspose (counter.map fun c =>
    match f64_from_u64 c with
    | none => Except.error "Failed to convert u64 to f64"
    | some v => Except.ok v)

/-- A consistent read of the counter group: per counter kind, `some count` when
that counter was opened, `none` otherwise (the `Option<Counter>` slots of
`PerfEventCollector` combined with `Group::read`'s `counts[c]` lookups). -/
structure Snapshot where
  cycles : Option ℕ
  instructions : Option ℕ
  last_level_cache_references : Option ℕ
  last_level_cache_misses : Option ℕ
  l1_data_cache_reads : Option ℕ
  l1_data_cache_misses : Option ℕ
  l1_instruction_cache_misses : Option ℕ
  branch_instructions : Option ℕ
  branch_misses : Option ℕ
  cpu_migrations : Option ℕ
deriving DecidableEq

/-- The ratio-derivation portion of `PerfEventCollector::report` (lines
298-348), after `disable` and `read` succeeded.  Each `?` from the source is a
`match` on an `Except`; each ratio is guarded exactly as the source guards it
(`match (num, den) { (Some(n), Some(d)) if d != 0.0 => ..., _ => None }`). -/
def deriveReportE (s : Snapshot) : Except String PerfReport :=
  match count_to_f64 s.instructions with
  | .error e => .error e
  | .ok instructions =>
  match count_to_f64 s.cycles with
  | .error e => .error e
  | .ok cycles =>
  let instructions_per_cycle :=
    match instructions, cycles with
    | some instr, some cyc => if cyc ≠ 0 then some (instr / cyc) else none
    | _, _ => none
  match count_to_f64 s.last_level_cache_misses with
  | .error e => .error e
  | .ok last_level_cache_misses =>
  match count_to_f64 s.last_level_cache_references with
  | .error e => .error e
  | .ok last_level_cache_references =>
  let last_level_cache_hit_rate :=
    match last_level_cache_misses, last_level_cache_references with
    | some misses, some refs => if refs ≠ 0 then some (1 - misses / refs) else none
    | _, _ => none
  match count_to_f64 s.l1_data_cache_misses with
  | .error e => .error e
  | .ok l1_data_cache_misses =>
  match count_to_f64 s.l1_data_cache_reads with
  | .error e => .error e
  | .ok l1_data_cache_reads =>
  let l1_data_cache_hit_rate :=
    match l1_data_cache_misses, l1_data_cache_reads with
    | some misses, some reads => if reads ≠ 0 then some (1 - misses / reads) else none
    | _, _ => none
  match count_to_f64 s.l1_instruction_cache_misses with
  | .error e => .error e
  | .ok l1_instruction_cache_misses =>
  match count_to_f64 s.branch_misses with
  | .error e => .error e
  | .ok branch_misses =>
  match count_to_f64 s.branch_instructions with
  | .error e => .error e
  | .ok branch_instructions =>
  let branch_miss_ratio :=
    match branch_misses, branch_instructions with
    | some misses, some instrs => if instrs ≠ 0 then some (misses / instrs) else none
    | _, _ => none
  match count_to_f64 s.cpu_migrations with
  | .error e => .error e
  | .ok cpu_migrations =>
  .ok { instructions, instructions_per_cycle, last_level_cache_hit_rate,
        l1_data_cache_hit_rate, l1_instruction_cache_misses, branch_miss_ratio,
        cpu_migrations }

/-- The same derivation as a total function (the conversion step never fails,
see `count_to_f64_eq`); proved equal to `deriveReportE` in
`deriveReportE_never_fails`. -/
def deriveReport (s : Snapshot) : PerfReport :=
  let instructions := s.instructions.map fun n => (n : ℚ)
  let cycles := s.cycles.map fun n => (n : ℚ)
  let instructions_per_cycle :=
    match instructions, cycles with
    | some instr, some cyc => if cyc ≠ 0 then some (instr / cyc) else none
    | _, _ => none
  let last_level_cache_misses := s.last_level_cache_misses.map fun n => (n : ℚ)
  let last_level_cache_references := s.last_level_cache_references.map fun n => (n : ℚ)
  let last_level_cache_hit_rate :=
    match last_level_cache_misses, last_level_cache_references with
    | some misses, some refs => if refs ≠ 0 then some (1 - misses / refs) else none
    | _, _ => none
  let l1_data_cache_misses := s.l1_data_cache_misses.map fun n => (n : ℚ)
  let l1_data_cache_reads := s.l1_data_cache_reads.map fun n => (n : ℚ)
  let l1_data_cache_hit_rate :=
    match l1_data_cache_misses, l1_data_cache_reads with
    | some misses, some reads => if reads ≠ 0 then some (1 - misses / reads) else none
    | _, _ => none
  let l1_instruction_cache_misses := s.l1_instruction_cache_misses.map fun n => (n : ℚ)
  let branch_misses := s.branch_misses.map fun n => (n : ℚ)
  let branch_instructions := s.branch_instructions.map fun n => (n : ℚ)
  let branch_miss_ratio :=
    match branch_misses, branch_instructions with
    | some misses, some instrs => if instrs ≠ 0 then some (misses / instrs) else none
    | _, _ => none
  let cpu_migrations := s.cpu_migrations.map fun n => (n : ℚ)
  { instructions, instructions_per_cycle, last_level_cache_hit_rate,
    l1_data_cache_hit_rate, l1_instruction_cache_misses, branch_miss_ratio,
    cpu_migrations }

lemma count_to_f64_eq (x : Option ℕ) :
    count_to_f64 x = .ok (x.map fun n => (n : ℚ)) := by
  cases x <;> rfl

/-- Ratio derivation as a whole never returns an error (`f64::from_u64` is
total on `u64`, so the sole error branch is dead). -/
lemma deriveReportE_never_fails (s : Snapshot) :
    deriveReportE s = .ok (deriveReport s) := by
  simp only [deriveReportE, deriveReport, count_to_f64_eq]

/-! ## Serialization (serde derive semantics)

`TestResult` derives `Serialize` with `rename_all = "camelCase"` and no
`skip_serializing_if` on `perf_report`, so serde serializes a `None`
`perf_report` as an explicit JSON `null`.  `PerfReport` carries
`skip_serializing_if = "Option::is_none"` on every field, so absent metric
values are omitted entirely. -/

/-- Minimal JSON values for the serialized results. -/
inductive Json where
  | null : Json
  | num : ℚ → Json
  | obj : List (String × Json) → Json

/-- One optional `PerfReport` field under `skip_serializing_if = "Option::is_none"`:
emitted as a key/value pair when present, omitted when absent. -/
def optField (name : String) : Option ℚ → List (String × Json)
  | none => []
  | some q => [(name, Json.num q)]

/-- Serde serialization of `PerfReport` (lines 351-368): camelCase keys, every
field skipped when `None`. -/
def serializePerfReport (r : PerfReport) : Json :=
  Json.obj
    (optField "instructions" r.instructions ++
     optField "instructionsPerCycle" r.instructions_per_cycle ++
     optField "lastLevelCacheHitRate" r.last_level_cache_hit_rate ++
     optField "l1DataCacheHitRate" r.l1_data_cache_hit_rate ++
     optField "l1InstructionCacheMisses" r.l1_instruction_cache_misses ++
     optField "branchMissRatio" r.branch_miss_ratio ++
     optField "cpuMigrations" r.cpu_migrations)

/-- Serde serialization of `TestResult` (lines 91-98): camelCase keys; the
`perf_report` field has NO `skip_serializing_if` attribute, so serde's default
`Option` behaviour applies and `None` is emitted as `"perfReport": null`. -/
def serializeTestResult (t : TestResult) : Json :=
  Json.obj
    [("durationNs", Json.num t.duration_ns),
     ("perfReport",
       match t.perf_report with
       | none => Json.null
       | some r => serializePerfReport r)]

/-! ## The collector and the harness -/

/-- The ten hardware/software counter kinds programmed by
`PerfEventCollector::new` (lines 251-272), in source order. -/
inductive CounterKind where
  | cycles
  | instructions
  | last_level_cache_references
  | last_level_cache_misses
  | l1_data_cache_reads
  | l1_data_cache_misses
  | l1_instruction_cache_misses
  | branch_instructions
  | branch_misses
  | cpu_migrations
deriving DecidableEq

/-- Whether `config` requires the counter of kind `k` to be opened. -/
def PerfEventConfig.flag (c : PerfEventConfig) : CounterKind → Bool
  | .cycles => c.cycles
  | .instructions => c.instructions
  | .last_level_cache_references => c.last_level_cache_references
  | .last_level_cache_misses => c.last_level_cache_misses
  | .l1_data_cache_reads => c.l1_data_cache_reads
  | .l1_data_cache_misses => c.l1_data_cache_misses
  | .l1_instruction_cache_misses => c.l1_instruction_cache_misses
  | .branch_instructions => c.branch_instructions
  | .branch_misses => c.branch_misses
  | .cpu_migrations => c.cpu_migrations

/-- The counter readings `Group::read` would deliver for each opened counter. -/
structure PerfCounts where
  cycles : ℕ
  instructions : ℕ
  last_level_cache_references : ℕ
  last_level_cache_misses : ℕ
  l1_data_cache_reads : ℕ
  l1_data_cache_misses : ℕ
  l1_instruction_cache_misses : ℕ
  branch_instructions : ℕ
  branch_misses : ℕ
  cpu_migrations : ℕ
deriving DecidableEq

/-- Outcomes of the side-effecting operations `execute_test` performs, fixed
per invocation.  `setup` covers the out-of-scope collaborators (artifact load,
database construction, transaction build, lines 108-120); `groupNew` is
`perf_event::Group::new()`; `build k` is `Builder::new().group(..).kind(k).build()`;
`transact` is `execute_test_transact`: `.error` when the EVM itself fails,
`.ok b` when it completes with `is_success() = b`. -/
structure Oracle where
  setup : Except String Unit
  groupNew : Except String Unit
  build : CounterKind → Except String Unit
  enable : Except String Unit
  disable : Except String Unit
  readOk : Except String Unit
  counts : PerfCounts
  transact : Except String Bool
  elapsedNs : ℕ

/-- `PerfEventCollector` (lines 214-226): one optional live-counter slot per
kind (`some ()` = the counter was built into the group). -/
structure PerfEventCollector where
  cycles : Option Unit
  instructions : Option Unit
  last_level_cache_references : Option Unit
  last_level_cache_misses : Option Unit
  l1_data_cache_reads : Option Unit
  l1_data_cache_misses : Option Unit
  l1_instruction_cache_misses : Option Unit
  branch_instructions : Option Unit
  branch_misses : Option Unit
  cpu_migrations : Option Unit
deriving DecidableEq

/-- The `optional_perf_event!` macro (lines 241-249): build the counter only
when its flag is enabled; a build failure propagates via `?`. -/
def optional_perf_event (enabled : Bool) (bld : Except String Unit) :
    Except String (Option Unit) :=
  if enabled then
    match bld with
    | .error e => .error e
    | .ok _ => .ok (some ())
  else .ok none

/-- `PerfEventCollector::new` (lines 229-287): open the group, then build each
enabled counter in source order; the first failure aborts the whole
construction (each `?` is a `match`), so no partially-opened collector value is
ever produced. -/
def PerfEventCollector.new (config : PerfEventConfig) (o : Oracle) :
    Except String PerfEventCollector :=
  match o.groupNew with
  | .error e => .error e
  | .ok _ =>
  match optional_perf_event config.cycles (o.build .cycles) with
  | .error e => .error e
  | .ok cycles =>
  match optional_perf_event config.instructions (o.build .instructions) with
  | .error e => .error e
  | .ok instructions =>
  match optional_perf_event config.last_level_cache_references
      (o.build .last_level_cache_references) with
  | .error e => .error e
  | .ok last_level_cache_references =>
  match optional_perf_event config.last_level_cache_misses
      (o.build .last_level_cache_misses) with
  | .error e => .error e
  | .ok last_level_cache_misses =>
  match optional_perf_event config.l1_data_cache_reads (o.build .l1_data_cache_reads) with
  | .error e => .error e
  | .ok l1_data_cache_reads =>
  match optional_perf_event config.l1_data_cache_misses (o.build .l1_data_cache_misses) with
  | .error e => .error e
  | .ok l1_data_cache_misses =>
  match optional_perf_event config.l1_instruction_cache_misses
      (o.build .l1_instruction_cache_misses) with
  | .error e => .error e
  | .ok l1_instruction_cache_misses =>
  match optional_perf_event config.branch_instructions (o.build .branch_instructions) with
  | .error e => .error e
  | .ok branch_instructions =>
  match optional_perf_event config.branch_misses (o.build .branch_misses) with
  | .error e => .error e
  | .ok branch_misses =>
  match optional_perf_event config.cpu_migrations (o.build .cpu_migrations) with
  | .error e => .error e
  | .ok cpu_migrations =>
  .ok { cycles, instructions, last_level_cache_references, last_level_cache_misses,
        l1_data_cache_reads, l1_data_cache_misses, l1_instruction_cache_misses,
        branch_instructions, branch_misses, cpu_migrations }

/-- `Group::read` through the collector's slots: the snapshot fed to ratio
derivation (`counts[c]` per opened counter). -/
def readSnapshot (c : PerfEventCollector) (counts : PerfCounts) : Snapshot where
  cycles := c.cycles.map fun _ => counts.cycles
  instructions := c.instructions.map fun _ => counts.instructions
  last_level_cache_references :=
    c.last_level_cache_references.map fun _ => counts.last_level_cache_references
  last_level_cache_misses :=
    c.last_level_cache_misses.map fun _ => counts.last_level_cache_misses
  l1_data_cache_reads := c.l1_data_cache_reads.map fun _ => counts.l1_data_cache_reads
  l1_data_cache_misses := c.l1_data_cache_misses.map fun _ => counts.l1_data_cache_misses
  l1_instruction_cache_misses :=
    c.l1_instruction_cache_misses.map fun _ => counts.l1_instruction_cache_misses
  branch_instructions := c.branch_instructions.map fun _ => counts.branch_instructions
  branch_misses := c.branch_misses.map fun _ => counts.branch_misses
  cpu_migrations := c.cpu_migrations.map fun _ => counts.cpu_migrations

/-- The dynamic content of the `eyre::Error` values `execute_test` can return,
tagged by the underlying error's provenance (eyre preserves the source error
for downcasting, and the distinct messages survive the napi `to_string()`
flattening):
* `setupError`: artifact load / database / transaction-build failures,
* `collectorError`: `perf_event` I/O failures (open, enable, disable, read),
* `transactError`: the EVM invocation itself failed,
* `reverted`: `eyre::bail!("Test function reverted")` (line 143),
* `convertError`: the (dead) u64-to-f64 conversion branch. -/
inductive HarnessError where
  | setupError : String → HarnessError
  | collectorError : String → HarnessError
  | transactError : String → HarnessError
  | reverted : HarnessError
  | convertError : String → HarnessError
deriving DecidableEq

/-- The observable lifecycle events of one `execute_test` invocation, recorded
in the order the source performs them. -/
inductive Event where
  | openGroup
  | enableGroup
  | runWorkload
  | disableGroup
  | readGroup
  | assemble
deriving DecidableEq

/-- The tail of `execute_test` from the timed invocation onward (lines
131-150): run the workload, then — when a collector exists — inline
`PerfEventCollector::report` (disable, read, derive, lines 294-348), then check
`test_result.result.is_success()` and assemble the `TestResult`. -/
def runMeasurement (pec : Option PerfEventCollector) (o : Oracle) (t : List Event) :
    Except HarnessError TestResult × List Event :=
  match o.transact with
  | .error e => (.error (.transactError e), t ++ [.runWorkload])
  | .ok success =>
  let t := t ++ [.runWorkload]
  match pec with
  | none =>
    if success then (.ok ⟨(o.elapsedNs : ℚ), none⟩, t ++ [.assemble])
    else (.error .reverted, t)
  | some c =>
    match o.disable with
    | .error e => (.error (.collectorError e), t)
    | .ok _ =>
    let t := t ++ [.disableGroup]
    match o.readOk with
    | .error e => (.error (.collectorError e), t)
    | .ok _ =>
    let t := t ++ [.readGroup]
    match deriveReportE (readSnapshot c o.counts) with
    | .error e => (.error (.convertError e), t)
    | .ok report =>
    if success then (.ok ⟨(o.elapsedNs : ℚ), some report⟩, t ++ [.assemble])
    else (.error .reverted, t)

/-- The events contributed by `PerfEventCollector::new`: the group is opened
(one `perf_event::Group::new()` call) exactly when that call succeeds,
whatever happens to the individual counter builds afterwards. -/
def openTrace (o : Oracle) : List Event :=
  match o.groupNew with
  | .ok _ => [Event.openGroup]
  | .error _ => []

/-- `execute_test` (lines 103-151) over the oracle, returning the result and
the ordered event trace.  The out-of-scope collaborators (lines 108-120) are a
single fallible `setup` step; when a report config is present, the collector is
constructed and enabled (lines 122-129) before the workload runs. -/
def executeTest (cfg : Option PerfReportConfig) (o : Oracle) :
    Except HarnessError TestResult × List Event :=
  match o.setup with
  | .error e => (.error (.setupError e), [])
  | .ok _ =>
  match cfg with
  | none => runMeasurement none o []
  | some rc =>
    match PerfEventCollector.new (PerfEventConfig.ofReportConfig rc) o with
    | .error e => (.error (.collectorError e), openTrace o)
    | .ok pec =>
    match o.enable with
    | .error e => (.error (.collectorError e), openTrace o)
    | .ok _ => runMeasurement (some pec) o (openTrace o ++ [.enableGroup])

/-- The CLI front end's conversion of flag values to an optional report config
(src/crates/cli/src/main.rs lines 90-101): an entirely-false flag set becomes
`None`. -/
def perfReportConfigOpt (c : PerfReportConfig) : Option PerfReportConfig :=
  if c.instructions || c.instructions_per_cycle || c.last_level_cache_hit_rate
      || c.l1_data_cache_hit_rate || c.l1_instruction_cache_misses
      || c.branch_miss_ratio || c.cpu_migrations
  then some c else none

/-! ## Trace utilities -/

/-- `beginsWith pat t`: `t` starts with the event sequence `pat`. -/
def beginsWith : List Event → List Event → Bool
  | [], _ => true
  | _ :: _, [] => false
  | p :: ps, x :: xs => if p = x then beginsWith ps xs else false

/-- `occursIn pat t`: `pat` occurs in `t` as a contiguous subsequence. -/
def occursIn (pat : List Event) : List Event → Bool
  | [] => beginsWith pat []
  | x :: xs => beginsWith pat (x :: xs) || occursIn pat xs

/-! ## Helper lemmas -/

/-- Closed form of the resolver: each required counter as a function of the
requested metrics (the fixed mapping table of spec section 4.1). -/
lemma ofReportConfig_eq (rc : PerfReportConfig) :
    PerfEventConfig.ofReportConfig rc =
      ⟨rc.instructions_per_cycle,
       rc.instructions || rc.instructions_per_cycle,
       rc.last_level_cache_hit_rate, rc.last_level_cache_hit_rate,
       rc.l1_data_cache_hit_rate, rc.l1_data_cache_hit_rate,
       rc.l1_instruction_cache_misses,
       rc.branch_miss_ratio, rc.branch_miss_ratio,
       rc.cpu_migrations⟩ := by
  rcases rc with ⟨i, ipc, llc, l1d, l1i, br, cm⟩
  cases i <;> cases ipc <;> cases llc <;> cases l1d <;> cases l1i <;> cases br <;> cases cm <;> rfl

/-- The slot a successful counter build leaves behind. -/
def slotOf (b : Bool) : Option Unit := if b then some () else none

lemma optional_perf_event_of_ok (b : Bool) (bld : Except String Unit) (hb : bld = .ok ()) :
    optional_perf_event b bld = .ok (slotOf b) := by
  cases b <;> simp [optional_perf_event, hb, slotOf]

/-- When the group and every enabled counter open successfully, `new` returns
the collector with exactly the enabled slots populated. -/
lemma new_of_all_ok (cfg : PerfEventConfig) (o : Oracle)
    (hg : o.groupNew = .ok ()) (hb : ∀ k, o.build k = .ok ()) :
    PerfEventCollector.new cfg o = .ok
      ⟨slotOf cfg.cycles, slotOf cfg.instructions,
       slotOf cfg.last_level_cache_references, slotOf cfg.last_level_cache_misses,
       slotOf cfg.l1_data_cache_reads, slotOf cfg.l1_data_cache_misses,
       slotOf cfg.l1_instruction_cache_misses, slotOf cfg.branch_instructions,
       slotOf cfg.branch_misses, slotOf cfg.cpu_migrations⟩ := by
  simp [PerfEventCollector.new, hg, hb, optional_perf_event_of_ok]

/-- All-or-nothing open: if some required counter kind fails to build, `new`
never produces a collector value. -/
lemma new_ne_ok (cfg : PerfEventConfig) (o : Oracle) (k : CounterKind) (m : String)
    (hreq : cfg.flag k = true) (hb : o.build k = .error m) :
    ∀ c, PerfEventCollector.new cfg o ≠ .ok c := by
  intro c h
  unfold PerfEventCollector.new at h
  cases k <;> simp only [PerfEventConfig.flag] at hreq <;>
    (repeat' split at h) <;> simp_all [optional_perf_event]

lemma slotOf_map (b : Bool) (f : Unit → α) :
    (slotOf b).map f = if b then some (f ()) else none := by
  cases b <;> simp [slotOf]

lemma deriveReport_instructions (s : Snapshot) :
    (deriveReport s).instructions = s.instructions.map fun n => (n : ℚ) := rfl

lemma beginsWith_self_append (p rest : List Event) : beginsWith p (p ++ rest) = true := by
  induction p with
  | nil => rfl
  | cons x xs ih => simp [beginsWith, ih]

lemma occursIn_of_beginsWith (p t : List Event) (h : beginsWith p t = true) :
    occursIn p t = true := by
  cases t with
  | nil => cases p with
    | nil => rfl
    | cons x xs => simp [beginsWith] at h
  | cons x xs => simp [occursIn, h]

lemma occursIn_cons (p t : List Event) (x : Event) (h : occursIn p t = true) :
    occursIn p (x :: t) = true := by
  simp [occursIn, h]

lemma occursIn_append_left (p pre t : List Event) (h : occursIn p t = true) :
    occursIn p (pre ++ t) = true := by
  induction pre with
  | nil => simpa using h
  | cons x xs ih => simpa using occursIn_cons p (xs ++ t) x ih

lemma occursIn_self_append (p rest : List Event) : occursIn p (p ++ rest) = true :=
  occursIn_of_beginsWith _ _ (beginsWith_self_append p rest)

lemma occursIn_middle (p pre rest : List Event) :
    occursIn p (pre ++ p ++ rest) = true := by
  rw [List.append_assoc]
  exact occursIn_append_left p pre _ (occursIn_self_append p rest)

/-! ## Concrete fixtures for witnesses and counterexamples -/

/-- All counter readings zero. -/
def zeroCounts : PerfCounts := ⟨0, 0, 0, 0, 0, 0, 0, 0, 0, 0⟩

/-- An oracle on which every operation succeeds: perf events are available,
the workload completes successfully in 7 ns, all counters read zero. -/
def oGood : Oracle :=
  ⟨.ok (), .ok (), fun _ => .ok (), .ok (), .ok (), .ok (), zeroCounts, .ok true, 7⟩

/-- Request only the instructions metric. -/
def rcInstr : PerfReportConfig := ⟨true, false, false, false, false, false, false⟩

/-- Request only the instructions-per-cycle metric. -/
def rcIpc : PerfReportConfig := ⟨false, true, false, false, false, false, false⟩

lemma openTrace_mem (o : Oracle) (e : Event) (h : e ∈ openTrace o) :
    e = Event.openGroup := by
  unfold openTrace at h
  cases hg : o.groupNew with
  | ok u => rw [hg] at h; simpa using h
  | error m => rw [hg] at h; simp at h

lemma readGroup_not_in_openTrace (o : Oracle) : Event.readGroup ∉ openTrace o := by
  intro h
  have := openTrace_mem o _ h
  simp at this

lemma runWorkload_not_in_openTrace (o : Oracle) : Event.runWorkload ∉ openTrace o := by
  intro h
  have := openTrace_mem o _ h
  simp at this

lemma new_ok_groupNew (cfg : PerfEventConfig) (o : Oracle) (c : PerfEventCollector)
    (h : PerfEventCollector.new cfg o = .ok c) : o.groupNew = .ok () := by
  unfold PerfEventCollector.new at h
  cases hg : o.groupNew with
  | error m => rw [hg] at h; simp at h
  | ok u => cases u; rfl

/-- Closed form of each ratio field of `deriveReport`. -/
lemma deriveReport_ipc (s : Snapshot) :
    (deriveReport s).instructions_per_cycle =
      match s.instructions, s.cycles with
      | some i, some c => if (c : ℚ) ≠ 0 then some ((i : ℚ) / (c : ℚ)) else none
      | _, _ => none := by
  rcases s with ⟨c1, c2, c3, c4, c5, c6, c7, c8, c9, c10⟩
  cases c1 <;> cases c2 <;> rfl

lemma deriveReport_llc (s : Snapshot) :
    (deriveReport s).last_level_cache_hit_rate =
      match s.last_level_cache_misses, s.last_level_cache_references with
      | some m, some r => if (r : ℚ) ≠ 0 then some (1 - (m : ℚ) / (r : ℚ)) else none
      | _, _ => none := by
  rcases s with ⟨c1, c2, c3, c4, c5, c6, c7, c8, c9, c10⟩
  cases c3 <;> cases c4 <;> rfl

lemma deriveReport_l1d (s : Snapshot) :
    (deriveReport s).l1_data_cache_hit_rate =
      match s.l1_data_cache_misses, s.l1_data_cache_reads with
      | some m, some r => if (r : ℚ) ≠ 0 then some (1 - (m : ℚ) / (r : ℚ)) else none
      | _, _ => none := by
  rcases s with ⟨c1, c2, c3, c4, c5, c6, c7, c8, c9, c10⟩
  cases c5 <;> cases c6 <;> rfl

lemma deriveReport_branch (s : Snapshot) :
    (deriveReport s).branch_miss_ratio =
      match s.branch_misses, s.branch_instructions with
      | some m, some b => if (b : ℚ) ≠ 0 then some ((m : ℚ) / (b : ℚ)) else none
      | _, _ => none := by
  rcases s with ⟨c1, c2, c3, c4, c5, c6, c7, c8, c9, c10⟩
  cases c8 <;> cases c9 <;> rfl

/-- With a failed workload the measurement tail always aborts (whatever the
collector state), so no `TestResult` can be produced. -/
lemma runMeasurement_failure_ne_ok (pec : Option PerfEventCollector) (o : Oracle)
    (t : List Event) (hw : o.transact = .ok false) :
    ∀ r, (runMeasurement pec o t).1 ≠ .ok r := by
  intro r
  cases pec with
  | none => simp [runMeasurement, hw]
  | some c =>
    cases hdis : o.disable with
    | error e => simp [runMeasurement, hw, hdis]
    | ok u =>
      cases u
      cases hrd : o.readOk with
      | error e => simp [runMeasurement, hw, hdis, hrd]
      | ok u => cases u; simp [runMeasurement, hw, hdis, hrd, deriveReportE_never_fails]

/-- With a failed workload and a cleanly read/disabled group, the measurement
tail returns exactly the workload-failure error. -/
lemma runMeasurement_failure_reverted (pec : Option PerfEventCollector) (o : Oracle)
    (t : List Event) (hw : o.transact = .ok false)
    (hd : o.disable = .ok ()) (hr : o.readOk = .ok ()) :
    (runMeasurement pec o t).1 = .error .reverted := by
  cases pec with
  | none => simp [runMeasurement, hw]
  | some c => simp [runMeasurement, hw, hd, hr, deriveReportE_never_fails]

/-- All-fields-absent perf report. -/
def emptyPerfReport : PerfReport := ⟨none, none, none, none, none, none, none⟩

/-- Snapshot with instructions = 1000 and cycles = 500 (only those counters). -/
def snapIpc : Snapshot := ⟨some 500, some 1000, none, none, none, none, none, none, none, none⟩

/-- Snapshot with last-level cache references = 0 and misses = 0 (only those). -/
def snapZeroLLC : Snapshot := ⟨none, none, some 0, some 0, none, none, none, none, none, none⟩

/-! ## Claims -/

/-- C7: the metric-requirement resolver is a pure function realizing the fixed
mapping table (first conjunct: the closed form of every required-counter flag
as a function of the requested metrics, shared counters switched on once);
if only "instructions" is requested the required set is exactly
{instructions}; if "instructions-per-cycle" is also requested it is exactly
{instructions, cycles}. -/
theorem c7_resolver_fixed_table :
    (∀ rc : PerfReportConfig, PerfEventConfig.ofReportConfig rc =
      ⟨rc.instructions_per_cycle, rc.instructions || rc.instructions_per_cycle,
       rc.last_level_cache_hit_rate, rc.last_level_cache_hit_rate,
       rc.l1_data_cache_hit_rate, rc.l1_data_cache_hit_rate,
       rc.l1_instruction_cache_misses, rc.branch_miss_ratio, rc.branch_miss_ratio,
       rc.cpu_migrations⟩) ∧
    PerfEventConfig.ofReportConfig ⟨true, false, false, false, false, false, false⟩ =
      { PerfEventConfig.default with instructions := true } ∧
    PerfEventConfig.ofReportConfig ⟨true, true, false, false, false, false, false⟩ =
      { PerfEventConfig.default with cycles := true, instructions := true } :=
  ⟨ofReportConfig_eq, by decide, by decide⟩

/-- C8: ratio derivation computes instructions-per-cycle as instructions
divided by cycles whenever both counters are present and cycles is non-zero;
the witness instantiates instructions = 1000, cycles = 500 and obtains
exactly 2. -/
theorem c8_ipc_is_division (s : Snapshot) (i c : ℕ)
    (hi : s.instructions = some i) (hc : s.cycles = some c) (hc0 : c ≠ 0) :
    (deriveReport s).instructions_per_cycle = some ((i : ℚ) / (c : ℚ)) := by
  have hcq : (c : ℚ) ≠ 0 := Nat.cast_ne_zero.mpr hc0
  rw [deriveReport_ipc, hi, hc]
  simp [hcq]

/-- Witness for C8: with instructions = 1000 and cycles = 500 the derived
instructions-per-cycle is exactly 2. -/
theorem c8_ipc_is_division_witness :
    (deriveReport snapIpc).instructions_per_cycle = some 2 := by
  have h := c8_ipc_is_division snapIpc 1000 500 rfl rfl (by norm_num)
  rw [h]
  norm_num

/-- C3: ratio derivation never raises an error (first conjunct); each derived
ratio is present only if every counter it depends on was opened and the
denominator is non-zero (second conjunct, per metric); with last-level cache
references = 0 and misses = 0 the hit rate is absent (third conjunct) — in the
rational model no NaN exists, and the guards shown here are exactly what keeps
the f64 computation away from 0.0/0.0. -/
theorem c3_ratio_guards :
    (∀ s : Snapshot, deriveReportE s = .ok (deriveReport s)) ∧
    (∀ s : Snapshot,
      ((deriveReport s).instructions_per_cycle.isSome = true →
        s.instructions.isSome = true ∧ ∃ c, s.cycles = some c ∧ c ≠ 0) ∧
      ((deriveReport s).last_level_cache_hit_rate.isSome = true →
        s.last_level_cache_misses.isSome = true ∧
          ∃ r, s.last_level_cache_references = some r ∧ r ≠ 0) ∧
      ((deriveReport s).l1_data_cache_hit_rate.isSome = true →
        s.l1_data_cache_misses.isSome = true ∧
          ∃ r, s.l1_data_cache_reads = some r ∧ r ≠ 0) ∧
      ((deriveReport s).branch_miss_ratio.isSome = true →
        s.branch_misses.isSome = true ∧
          ∃ b, s.branch_instructions = some b ∧ b ≠ 0)) ∧
    (∀ s : Snapshot, s.last_level_cache_references = some 0 →
      s.last_level_cache_misses = some 0 →
      (deriveReport s).last_level_cache_hit_rate = none) := by
  refine ⟨deriveReportE_never_fails, ?_, ?_⟩
  · intro s
    refine ⟨?_, ?_, ?_, ?_⟩
    · rw [deriveReport_ipc]
      cases hi : s.instructions <;> cases hc : s.cycles <;> simp
    · rw [deriveReport_llc]
      cases hm : s.last_level_cache_misses <;>
        cases hr : s.last_level_cache_references <;> simp
    · rw [deriveReport_l1d]
      cases hm : s.l1_data_cache_misses <;> cases hr : s.l1_data_cache_reads <;> simp
    · rw [deriveReport_branch]
      cases hm : s.branch_misses <;> cases hb : s.branch_instructions <;> simp
  · intro s h1 h2
    rw [deriveReport_llc, h1, h2]
    simp

/-- Witness for C3: the derivation succeeds on the zero-LLC snapshot, the hit
rate there is absent, and the instructions-per-cycle guard fires on a snapshot
where it is satisfiable (instructions and cycles present, cycles = 500 ≠ 0). -/
theorem c3_ratio_guards_witness :
    deriveReportE snapZeroLLC = .ok (deriveReport snapZeroLLC) ∧
    (deriveReport snapZeroLLC).last_level_cache_hit_rate = none ∧
    (snapIpc.instructions.isSome = true ∧ ∃ c, snapIpc.cycles = some c ∧ c ≠ 0) :=
  ⟨c3_ratio_guards.1 snapZeroLLC,
   c3_ratio_guards.2.2 snapZeroLLC rfl rfl,
   (c3_ratio_guards.2.1 snapIpc).1 (by decide)⟩

/-- C2 (code bug): serializing a `TestResult` whose perf report is absent
emits an explicit `"perfReport": null` — the key is present — because
`TestResult.perf_report` carries no `skip_serializing_if` attribute and serde
serializes a bare `Option::None` as `null`.  The inner `PerfReport` fields
are, by contrast, omitted entirely when absent (second conjunct), as the spec
demands for every optional field. -/
theorem c2_perf_report_serialized_as_null :
    serializeTestResult ⟨1, none⟩ =
      Json.obj [("durationNs", Json.num 1), ("perfReport", Json.null)] ∧
    serializePerfReport emptyPerfReport = Json.obj [] :=
  ⟨rfl, rfl⟩

/-- C1 counterexample: invoking the harness directly with a PRESENT but
entirely-false metric config, on an oracle where every operation succeeds,
still opens a counter group before the workload runs and returns a result
whose perf report is present (with every field absent) — refuting the claim
for its "every metric flag false" case. -/
theorem c1_counterexample :
    Event.openGroup ∈ (executeTest (some PerfReportConfig.default) oGood).2 ∧
    (executeTest (some PerfReportConfig.default) oGood).1 =
      .ok ⟨((7 : ℕ) : ℚ), some emptyPerfReport⟩ ∧
    (some emptyPerfReport).isSome = true :=
  ⟨by decide, rfl, rfl⟩

/-- C1 (amended): when the report config is ABSENT the harness opens no
counter group and any returned result carries no perf report; the CLI maps an
entirely-false flag set (and only that flag set) to the absent config, so CLI
invocations with no metric flag take exactly this path.  A direct invocation
with a present all-false config, however, still opens a group and returns a
present all-absent report (see the counterexample). -/
theorem c1_absent_config_no_group (o : Oracle) :
    Event.openGroup ∉ (executeTest none o).2 ∧
    (∀ r, (executeTest none o).1 = .ok r → r.perf_report = none) ∧
    (∀ rc : PerfReportConfig, perfReportConfigOpt rc = none ↔
      rc = PerfReportConfig.default) := by
  refine ⟨?_, ?_, ?_⟩
  · unfold executeTest runMeasurement
    cases hs : o.setup with
    | error e => simp
    | ok u =>
      cases ht : o.transact with
      | error e => simp
      | ok b => cases b <;> simp
  · unfold executeTest runMeasurement
    cases hs : o.setup with
    | error e => simp
    | ok u =>
      cases ht : o.transact with
      | error e => simp
      | ok b =>
        cases b <;> intro r hr <;> simp at hr
        rw [← hr]
  · intro rc
    rcases rc with ⟨a, b, c, d, e, f, g⟩
    cases a <;> cases b <;> cases c <;> cases d <;> cases e <;> cases f <;> cases g <;> decide

/-- Witness for C1 (amended) on the all-successful oracle. -/
theorem c1_absent_config_no_group_witness :
    Event.openGroup ∉ (executeTest none oGood).2 ∧
    (⟨((7 : ℕ) : ℚ), none⟩ : TestResult).perf_report = none ∧
    perfReportConfigOpt PerfReportConfig.default = none :=
  ⟨(c1_absent_config_no_group oGood).1,
   (c1_absent_config_no_group oGood).2.1 _ rfl,
   ((c1_absent_config_no_group oGood).2.2 PerfReportConfig.default).mpr rfl⟩

/-- C4 counterexample: on a fully successful run that opened a group, both a
read and a disable occur, but a read never precedes a disable anywhere in the
trace — `report` disables the group FIRST and reads it afterwards — refuting
"first read and then disabled" at this concrete input. -/
theorem c4_counterexample :
    Event.readGroup ∈ (executeTest (some rcInstr) oGood).2 ∧
    Event.disableGroup ∈ (executeTest (some rcInstr) oGood).2 ∧
    occursIn [Event.readGroup, Event.disableGroup]
      (executeTest (some rcInstr) oGood).2 = false ∧
    occursIn [Event.runWorkload, Event.readGroup, Event.disableGroup]
      (executeTest (some rcInstr) oGood).2 = false := by
  refine ⟨by decide, by decide, by decide, by decide⟩

/-- C4 (amended): whenever the opened counter group is read, the workload
return, the group DISABLE and the group read are immediately consecutive
events, before any further processing of the measurement (the source order is
disable-then-read, the reverse of the claimed read-then-disable). -/
theorem c4_disable_then_read (cfg : Option PerfReportConfig) (o : Oracle) :
    Event.readGroup ∈ (executeTest cfg o).2 →
    occursIn [Event.runWorkload, Event.disableGroup, Event.readGroup]
      (executeTest cfg o).2 = true := by
  intro h
  cases hs : o.setup with
  | error e => simp [executeTest, hs] at h
  | ok u =>
    cases u
    cases cfg with
    | none =>
      cases ht : o.transact with
      | error e => simp [executeTest, runMeasurement, hs, ht] at h
      | ok b => cases b <;> simp [executeTest, runMeasurement, hs, ht] at h
    | some rc =>
      cases hnew : PerfEventCollector.new (PerfEventConfig.ofReportConfig rc) o with
      | error e =>
        have h2 : Event.readGroup ∈ openTrace o := by
          simpa [executeTest, hs, hnew] using h
        exact absurd (openTrace_mem o _ h2) (by simp)
      | ok pec =>
        cases hen : o.enable with
        | error e =>
          have h2 : Event.readGroup ∈ openTrace o := by
            simpa [executeTest, hs, hnew, hen] using h
          exact absurd (openTrace_mem o _ h2) (by simp)
        | ok u2 =>
          cases u2
          cases ht : o.transact with
          | error e =>
            simp [executeTest, runMeasurement, hs, hnew, hen, ht,
              readGroup_not_in_openTrace] at h
          | ok b =>
            cases hdis : o.disable with
            | error e =>
              simp [executeTest, runMeasurement, hs, hnew, hen, ht, hdis,
                readGroup_not_in_openTrace] at h
            | ok u3 =>
              cases u3
              cases hrd : o.readOk with
              | error e =>
                simp [executeTest, runMeasurement, hs, hnew, hen, ht, hdis, hrd,
                  readGroup_not_in_openTrace] at h
              | ok u4 =>
                cases u4
                have hT : (executeTest (some rc) o).2 =
                    (openTrace o ++ [Event.enableGroup]) ++
                      ([Event.runWorkload, Event.disableGroup, Event.readGroup] ++
                        (if b then [Event.assemble] else [])) := by
                  cases b <;>
                    simp [executeTest, runMeasurement, hs, hnew, hen, ht, hdis, hrd,
                      deriveReportE_never_fails]
                rw [hT]
                exact occursIn_append_left _ _ _ (occursIn_self_append _ _)

/-- Witness for C4 (amended) on the all-successful oracle with the
instructions metric requested. -/
theorem c4_disable_then_read_witness :
    occursIn [Event.runWorkload, Event.disableGroup, Event.readGroup]
      (executeTest (some rcInstr) oGood).2 = true :=
  c4_disable_then_read (some rcInstr) oGood (by decide)

/-- Oracle on which the workload completes unsuccessfully AND the group
disable fails afterwards. -/
def oRevertDisableFail : Oracle :=
  ⟨.ok (), .ok (), fun _ => .ok (), .ok (), .error "EBADF", .ok (), zeroCounts, .ok false, 7⟩

/-- C5 counterexample: an invocation whose workload ran and completed
unsuccessfully, but whose counter group could not be disabled afterwards,
returns the collector's read/disable error rather than the workload-failure
error — `report` runs (and can fail) before the success check, so the claim's
universal "returns a WorkloadFailure error" fails at this input (though no
`TestResult` is produced either). -/
theorem c5_counterexample :
    oRevertDisableFail.transact = .ok false ∧
    Event.runWorkload ∈ (executeTest (some rcInstr) oRevertDisableFail).2 ∧
    (executeTest (some rcInstr) oRevertDisableFail).1 = .error (.collectorError "EBADF") ∧
    (executeTest (some rcInstr) oRevertDisableFail).1 ≠ .error .reverted :=
  ⟨rfl, by decide, rfl, fun h => HarnessError.noConfusion (Except.error.inj h)⟩

/-- C5 (amended): a workload that completes with an unsuccessful outcome never
yields a `TestResult` (first conjunct, unconditional on the collector); whenever
the workload actually ran (and the group, if any, was read and disabled cleanly —
per the spec's own step ordering a read failure preempts classification), the
harness returns exactly the workload-failure error; and that error is a
distinguished value, different from every setup, collector, or EVM error. -/
theorem c5_workload_failure (cfg : Option PerfReportConfig) (o : Oracle)
    (hw : o.transact = .ok false) (hd : o.disable = .ok ()) (hr : o.readOk = .ok ()) :
    (∀ r, (executeTest cfg o).1 ≠ .ok r) ∧
    (Event.runWorkload ∈ (executeTest cfg o).2 →
      (executeTest cfg o).1 = .error .reverted) ∧
    (∀ m, HarnessError.reverted ≠ .setupError m ∧
      HarnessError.reverted ≠ .collectorError m ∧
      HarnessError.reverted ≠ .transactError m) := by
  refine ⟨?_, ?_, by intro m; refine ⟨by simp, by simp, by simp⟩⟩
  · intro r
    cases hs : o.setup with
    | error e => simp [executeTest, hs]
    | ok u =>
      cases u
      cases cfg with
      | none => simpa [executeTest, hs] using runMeasurement_failure_ne_ok none o [] hw r
      | some rc =>
        cases hnew : PerfEventCollector.new (PerfEventConfig.ofReportConfig rc) o with
        | error e => simp [executeTest, hs, hnew]
        | ok pec =>
          cases hen : o.enable with
          | error e => simp [executeTest, hs, hnew, hen]
          | ok u2 =>
            cases u2
            simpa [executeTest, hs, hnew, hen] using
              runMeasurement_failure_ne_ok (some pec) o _ hw r
  · intro hmem
    cases hs : o.setup with
    | error e => simp [executeTest, hs] at hmem
    | ok u =>
      cases u
      cases cfg with
      | none =>
        simpa [executeTest, hs] using
          runMeasurement_failure_reverted none o [] hw hd hr
      | some rc =>
        cases hnew : PerfEventCollector.new (PerfEventConfig.ofReportConfig rc) o with
        | error e =>
          have h2 : Event.runWorkload ∈ openTrace o := by
            simpa [executeTest, hs, hnew] using hmem
          exact absurd (openTrace_mem o _ h2) (by simp)
        | ok pec =>
          cases hen : o.enable with
          | error e =>
            have h2 : Event.runWorkload ∈ openTrace o := by
              simpa [executeTest, hs, hnew, hen] using hmem
            exact absurd (openTrace_mem o _ h2) (by simp)
          | ok u2 =>
            cases u2
            simpa [executeTest, hs, hnew, hen] using
              runMeasurement_failure_reverted (some pec) o _ hw hd hr

/-- Oracle identical to `oGood` except that the workload completes with an
unsuccessful (reverted) outcome. -/
def oRevert : Oracle :=
  ⟨.ok (), .ok (), fun _ => .ok (), .ok (), .ok (), .ok (), zeroCounts, .ok false, 7⟩

/-- Witness for C5: with no report requested and a reverted workload, the
harness returns the workload-failure error and no result. -/
theorem c5_workload_failure_witness :
    (executeTest none oRevert).1 = .error .reverted ∧
    (∀ r, (executeTest none oRevert).1 ≠ .ok r) ∧
    HarnessError.reverted ≠ .collectorError "x" :=
  ⟨(c5_workload_failure none oRevert rfl rfl rfl).2.1 (by decide),
   (c5_workload_failure none oRevert rfl rfl rfl).1,
   ((c5_workload_failure none oRevert rfl rfl rfl).2.2 "x").2.1⟩

/-- C6: if opening a counter of a required kind fails, no collector value is
ever produced (all-or-nothing open), the single build error is surfaced to the
caller of the harness at open time, the workload is never invoked, and no
`TestResult` is produced. -/
theorem c6_open_failure_aborts (rc : PerfReportConfig) (o : Oracle)
    (k : CounterKind) (m : String)
    (hsetup : o.setup = .ok ())
    (hreq : (PerfEventConfig.ofReportConfig rc).flag k = true)
    (hb : o.build k = .error m) :
    (∀ c, PerfEventCollector.new (PerfEventConfig.ofReportConfig rc) o ≠ .ok c) ∧
    (∃ e, PerfEventCollector.new (PerfEventConfig.ofReportConfig rc) o = .error e ∧
      (executeTest (some rc) o).1 = .error (.collectorError e)) ∧
    Event.runWorkload ∉ (executeTest (some rc) o).2 ∧
    (∀ r, (executeTest (some rc) o).1 ≠ .ok r) := by
  have hne := new_ne_ok _ o k m hreq hb
  obtain ⟨e, hnew⟩ : ∃ e,
      PerfEventCollector.new (PerfEventConfig.ofReportConfig rc) o = .error e := by
    cases hnew : PerfEventCollector.new (PerfEventConfig.ofReportConfig rc) o with
    | ok c => exact absurd hnew (hne c)
    | error e => exact ⟨e, rfl⟩
  have hexec : executeTest (some rc) o = (.error (.collectorError e), openTrace o) := by
    simp [executeTest, hsetup, hnew]
  refine ⟨hne, ⟨e, hnew, by rw [hexec]⟩, ?_, ?_⟩
  · rw [hexec]
    exact runWorkload_not_in_openTrace o
  · rw [hexec]
    intro r
    simp

/-- Oracle identical to `oGood` except that building the instructions counter
fails. -/
def oBuildFail : Oracle :=
  ⟨.ok (), .ok (),
   fun k => match k with
     | .instructions => .error "ENOENT"
     | _ => .ok (),
   .ok (), .ok (), .ok (), zeroCounts, .ok true, 7⟩

/-- Witness for C6: requesting the instructions metric on a host whose
instructions counter cannot be programmed aborts before the workload with no
result. -/
theorem c6_open_failure_aborts_witness :
    Event.runWorkload ∉ (executeTest (some rcInstr) oBuildFail).2 ∧
    (∀ r, (executeTest (some rcInstr) oBuildFail).1 ≠ .ok r) :=
  ⟨(c6_open_failure_aborts rcInstr oBuildFail .instructions "ENOENT" rfl (by decide) rfl).2.2.1,
   (c6_open_failure_aborts rcInstr oBuildFail .instructions "ENOENT" rfl (by decide) rfl).2.2.2⟩

/-- C9: when the opened group cannot be disabled cleanly, or can be disabled
but not read, the harness returns the collector's read/disable error and no
`TestResult` — the already-measured duration is discarded. -/
theorem c9_read_error_discards_duration (rc : PerfReportConfig) (o : Oracle)
    (pec : PerfEventCollector) (b : Bool) (e : String)
    (hsetup : o.setup = .ok ())
    (hnew : PerfEventCollector.new (PerfEventConfig.ofReportConfig rc) o = .ok pec)
    (hen : o.enable = .ok ()) (ht : o.transact = .ok b)
    (herr : o.disable = .error e ∨ (o.disable = .ok () ∧ o.readOk = .error e)) :
    (executeTest (some rc) o).1 = .error (.collectorError e) ∧
    (∀ r, (executeTest (some rc) o).1 ≠ .ok r) := by
  have h1 : (executeTest (some rc) o).1 = .error (.collectorError e) := by
    rcases herr with hdis | ⟨hdis, hrd⟩
    · simp [executeTest, runMeasurement, hsetup, hnew, hen, ht, hdis]
    · simp [executeTest, runMeasurement, hsetup, hnew, hen, ht, hdis, hrd]
  refine ⟨h1, ?_⟩
  intro r
  simp [h1]

/-- Oracle identical to `oGood` except that reading the counter group fails. -/
def oReadFail : Oracle :=
  ⟨.ok (), .ok (), fun _ => .ok (), .ok (), .ok (), .error "EBADF", zeroCounts, .ok true, 7⟩

/-- The collector produced for the instructions-only request when every build
succeeds. -/
def pecInstr : PerfEventCollector :=
  ⟨none, some (), none, none, none, none, none, none, none, none⟩

/-- Witness for C9: a failing group read surfaces as the collector error and
no result is returned. -/
theorem c9_read_error_discards_duration_witness :
    (executeTest (some rcInstr) oReadFail).1 = .error (.collectorError "EBADF") ∧
    (∀ r, (executeTest (some rcInstr) oReadFail).1 ≠ .ok r) :=
  c9_read_error_discards_duration rcInstr oReadFail pecInstr true "EBADF"
    rfl rfl rfl rfl (.inr ⟨rfl, rfl⟩)

/-- C10 (implicit): when instructions-per-cycle is requested the instructions
counter is opened for it, and the returned report's instructions slot is
populated from that counter even if the instructions metric itself was not
requested — slots are filled whenever their underlying counter was opened. -/
theorem c10_ipc_populates_instructions (rc : PerfReportConfig) (o : Oracle)
    (hipc : rc.instructions_per_cycle = true)
    (hsetup : o.setup = .ok ()) (hg : o.groupNew = .ok ())
    (hb : ∀ k, o.build k = .ok ())
    (hen : o.enable = .ok ()) (ht : o.transact = .ok true)
    (hd : o.disable = .ok ()) (hr : o.readOk = .ok ()) :
    ∃ rep : PerfReport,
      (executeTest (some rc) o).1 = .ok ⟨(o.elapsedNs : ℚ), some rep⟩ ∧
      rep.instructions = some (o.counts.instructions : ℚ) := by
  have hflag : (PerfEventConfig.ofReportConfig rc).instructions = true := by
    rw [ofReportConfig_eq]
    simp [hipc]
  obtain ⟨pec, hnew, hpecI⟩ : ∃ pec,
      PerfEventCollector.new (PerfEventConfig.ofReportConfig rc) o = .ok pec ∧
      pec.instructions = some () := by
    refine ⟨_, new_of_all_ok _ o hg hb, ?_⟩
    simp [hflag, slotOf]
  refine ⟨deriveReport (readSnapshot pec o.counts), ?_, ?_⟩
  · simp [executeTest, runMeasurement, hsetup, hnew, hen, ht, hd, hr,
      deriveReportE_never_fails]
  · simp [deriveReport_instructions, readSnapshot, hpecI]

/-- Oracle identical to `oGood` except that the counters read
instructions = 1000 and cycles = 500. -/
def oIpc : Oracle :=
  ⟨.ok (), .ok (), fun _ => .ok (), .ok (), .ok (), .ok (),
   ⟨500, 1000, 0, 0, 0, 0, 0, 0, 0, 0⟩, .ok true, 7⟩

/-- Witness for C10: requesting only instructions-per-cycle still yields a
populated instructions slot. -/
theorem c10_ipc_populates_instructions_witness :
    ∃ rep : PerfReport,
      (executeTest (some rcIpc) oIpc).1 = .ok ⟨((7 : ℕ) : ℚ), some rep⟩ ∧
      rep.instructions = some ((1000 : ℕ) : ℚ) :=
  c10_ipc_populates_instructions rcIpc oIpc rfl rfl rfl (fun _ => rfl) rfl rfl rfl rfl
